import Mathlib

/-!
Verification of the position-encoding and term-rotation core of the Aeron
log buffer (`src/aeron-driver/src/main/c/concurrent/aeron_logbuffer_descriptor.c`).

The file under src/ holds only the `extern` declarations of the operations; the
inline bodies live in the header `aeron_logbuffer_descriptor.h`, which is not
part of the supplied sources.  Every operation below is therefore modelled from
the specification, constrained by the declared C signatures: machine integers
are embedded as `Int` with explicit two's-complement wrapping, and the shared
metadata region is explicit state threaded through each operation.
-/

/-- Signed 32-bit two's-complement wrap: the value an `int32_t` holds after an
operation whose mathematical result is `n`. -/
def toInt32 (n : Int) : Int := (n + 2147483648) % 4294967296 - 2147483648

/-- Signed 64-bit two's-complement wrap: the value an `int64_t` holds after an
operation whose mathematical result is `n`. -/
def toInt64 (n : Int) : Int :=
  (n + 9223372036854775808) % 18446744073709551616 - 9223372036854775808

/-- Arithmetic right shift of a two's-complement integer: floor division
by `2 ^ k` (Int division is Euclidean, which agrees with floor here). -/
def asr (n : Int) (k : Nat) : Int := n / 2 ^ k

/-- Modelled from the spec: the body of `aeron_logbuffer_term_offset` is not
under src/ (src line 19 only declares it).  Spec section 4.2: the low 32 bits of
the raw tail, sign-extended, "then clamped to term_length if the unclamped
value exceeds it". -/
def aeron_logbuffer_term_offset (raw_tail : Int) (term_length : Int) : Int :=
  if toInt32 raw_tail > term_length then term_length else toInt32 raw_tail

/-- Modelled from the spec: the body of `aeron_logbuffer_term_id` is not under
src/ (src line 20 only declares it).  Spec section 4.2: the high 32 bits of the
raw tail, sign-extended. -/
def aeron_logbuffer_term_id (raw_tail : Int) : Int := toInt32 (asr raw_tail 32)

/-- Modelled from the spec: raw-tail packing of spec sections 2 and 3 — the high
32 bits of the 64-bit word hold the term id, the low 32 bits the offset. -/
def aeron_logbuffer_pack_tail (term_id term_offset : Int) : Int :=
  toInt64 (term_id * 4294967296 + term_offset % 4294967296)

/-- Modelled from the spec: the body of `aeron_logbuffer_index_by_position` is
not under src/ (src line 21 only declares it).  Spec section 4.3:
`(position >> shift) mod 3`, result in `[0,3)`. -/
def aeron_logbuffer_index_by_position (position : Int) (position_bits_to_shift : Nat) : Int :=
  asr position position_bits_to_shift % 3

/-- Modelled from the spec: the body of `aeron_logbuffer_index_by_term` is not
under src/ (src line 22 only declares it).  Spec sections 4.3 and 3:
`term_count mod 3` where `term_count = active_term_id - initial_term_id` taken
mod `2^32` as a non-negative residue. -/
def aeron_logbuffer_index_by_term (initial_term_id active_term_id : Int) : Int :=
  (active_term_id - initial_term_id) % 4294967296 % 3

/-- Modelled from the spec: the body of `aeron_logbuffer_index_by_term_count` is
not under src/ (src line 23 only declares it).  Spec section 4.3:
`term_count mod 3`, result in `[0,3)`. -/
def aeron_logbuffer_index_by_term_count (term_count : Int) : Int :=
  term_count % 3

/-- Modelled from the spec: the body of `aeron_logbuffer_compute_position` is
not under src/ (src lines 24 and 25 only declare it).  Spec section 3: position
is `((term_id - initial_term_id) mod 2^32, interpreted as a signed 32-bit
term-count) << shift) + term_offset`, computed in 64-bit arithmetic. -/
def aeron_logbuffer_compute_position
    (active_term_id term_offset : Int) (position_bits_to_shift : Nat)
    (initial_term_id : Int) : Int :=
  toInt64 (toInt32 (active_term_id - initial_term_id) * 2 ^ position_bits_to_shift + term_offset)

/-- Modelled from the spec: the body of
`aeron_logbuffer_compute_term_id_from_position` is not under src/ (src lines 26
and 27 only declare it).  Spec section 4.1: `initial_term_id +
(position >> shift)` with arithmetic shift, as an `int32_t`. -/
def aeron_logbuffer_compute_term_id_from_position
    (position : Int) (position_bits_to_shift : Nat) (initial_term_id : Int) : Int :=
  toInt32 (initial_term_id + asr position position_bits_to_shift)

/-- Modelled from the spec: the body of
`aeron_logbuffer_compute_term_offset_from_position` is not under src/ (src line
28 only declares it).  Spec section 4.1: `position & (term_length - 1)`, i.e.
the low `shift` bits of the position, as an `int32_t`. -/
def aeron_logbuffer_compute_term_offset_from_position
    (position : Int) (position_bits_to_shift : Nat) : Int :=
  toInt32 (position % 2 ^ position_bits_to_shift)

/-- Frame header fields of spec sections 3 and 6: frame length placeholder,
version, flags, type, term offset, session id, stream id, term id. -/
structure aeron_frame_header_t where
  frame_length : Int
  version : Int
  flags : Int
  frame_type : Int
  term_offset : Int
  session_id : Int
  stream_id : Int
  term_id : Int
deriving DecidableEq

/-- Modelled from the spec: the metadata region layout of spec section 6 —
three raw-tail 64-bit words (one per partition), the active-term-count word,
term length, initial term id and the default header template.  The struct
definition is not under src/; only declarations taking
`aeron_logbuffer_metadata_t *` are. -/
structure aeron_logbuffer_metadata_t where
  term_tail_counters : Fin 3 → Int
  active_term_count : Int
  term_length : Int
  initial_term_id : Int
  default_header : aeron_frame_header_t

/-- Partition slot corresponding to an indexer result (an integer in `[0,3)`). -/
def partition_of (i : Int) : Fin 3 := ⟨i.toNat % 3, Nat.mod_lt _ (by norm_num)⟩

/-- Modelled from the spec: the body of `aeron_logbuffer_cas_raw_tail` is not
under src/ (src lines 29 to 33 only declare it).  Spec sections 5 to 7: a
single-word atomic compare-and-swap on the raw tail of one partition — if the
current value equals `expected_raw_tail` the word becomes `update_raw_tail` and
the call reports success, otherwise nothing changes and it reports failure. -/
def aeron_logbuffer_cas_raw_tail
    (log_meta_data : aeron_logbuffer_metadata_t) (partition_index : Fin 3)
    (expected_raw_tail update_raw_tail : Int) :
    Bool × aeron_logbuffer_metadata_t :=
  if log_meta_data.term_tail_counters partition_index = expected_raw_tail then
    (true, { log_meta_data with
      term_tail_counters :=
        Function.update log_meta_data.term_tail_counters partition_index update_raw_tail })
  else
    (false, log_meta_data)

/-- Modelled from the spec: the body of `aeron_logbuffer_cas_active_term_count`
is not under src/ (src lines 34 to 37 only declare it).  A single-word atomic
compare-and-swap on the active-term-count word of the metadata region. -/
def aeron_logbuffer_cas_active_term_count
    (log_meta_data : aeron_logbuffer_metadata_t)
    (expected_term_count update_term_count : Int) :
    Bool × aeron_logbuffer_metadata_t :=
  if log_meta_data.active_term_count = expected_term_count then
    (true, { log_meta_data with active_term_count := update_term_count })
  else
    (false, log_meta_data)

/-- Modelled from the spec: the body of `aeron_logbuffer_fill_default_header`
is not under src/ (src lines 40 and 41 only declare it).  Spec section 4.5:
writes the fixed header fields once at creation — term offset 0, the given
session id and stream id, and term id equal to `initial_term_id`; the frame
length, version, flags and type fields hold fixed placeholder values. -/
def aeron_logbuffer_fill_default_header
    (log_meta_data : aeron_logbuffer_metadata_t)
    (session_id stream_id initial_term_id : Int) : aeron_logbuffer_metadata_t :=
  { log_meta_data with default_header :=
    { frame_length := 0, version := 0, flags := 0, frame_type := 0,
      term_offset := 0, session_id := session_id, stream_id := stream_id,
      term_id := initial_term_id } }

/-- Modelled from the spec: the body of `aeron_logbuffer_apply_default_header`
is not under src/ (src line 42 only declares it).  Spec section 4.5: byte-copies
the stored template into the destination buffer; per its declared signature it
receives only the metadata region and the destination, so the copy carries the
template's fields unchanged (the destination's previous contents are
overwritten). -/
def aeron_logbuffer_apply_default_header
    (log_meta_data : aeron_logbuffer_metadata_t)
    (buffer : aeron_frame_header_t) : aeron_frame_header_t :=
  log_meta_data.default_header

/-- Modelled from the spec: the body of `aeron_logbuffer_rotate_log` is not
under src/ (src lines 38 and 39 only declare it).  Its declared signature passes
only the metadata region and two `int32_t` arguments, and the spec section 6
metadata layout contains no term-partition bytes, so the function's effect is
confined to the metadata words.  It drives the CAS steps of the rotation
protocol (spec section 4.4 steps 2 and 4): CAS the next partition's raw tail
(the partition at `index_by_term_count(current_term_count + 1)`) from the clean
value packing `(current_term_id - 2, 0)` to `(current_term_id + 1, 0)`, then
CAS the active term count from `current_term_count` to
`current_term_count + 1`. -/
def aeron_logbuffer_rotate_log
    (log_meta_data : aeron_logbuffer_metadata_t)
    (current_term_count current_term_id : Int) : aeron_logbuffer_metadata_t :=
  let next_term_id := toInt32 (current_term_id + 1)
  let next_term_count := toInt32 (current_term_count + 1)
  let next_index := partition_of (aeron_logbuffer_index_by_term_count next_term_count)
  let expected_raw_tail := aeron_logbuffer_pack_tail (toInt32 (current_term_id - 2)) 0
  let new_raw_tail := aeron_logbuffer_pack_tail next_term_id 0
  let m1 := (aeron_logbuffer_cas_raw_tail log_meta_data next_index expected_raw_tail new_raw_tail).2
  (aeron_logbuffer_cas_active_term_count m1 current_term_count next_term_count).2

/-- The full shared log state: the metadata region plus the first frame of each
of the three term partitions (the only term bytes the rotation protocol of spec
section 4.4 touches). -/
structure aeron_log_t where
  meta : aeron_logbuffer_metadata_t
  first_frame : Fin 3 → aeron_frame_header_t

/-- The effect of a `rotate_log` call on the full log state: per its declaration
(src lines 38 and 39) the call receives only the metadata region, and the spec
section 6 metadata layout contains no term-partition bytes, so the partition
frames are outside its reach and unchanged across the call. -/
def aeron_rotate_log_on_log (s : aeron_log_t) (current_term_count current_term_id : Int) :
    aeron_log_t :=
  { s with meta := aeron_logbuffer_rotate_log s.meta current_term_count current_term_id }

/-- Modelled from the spec: one rotation contender executing spec section 4.4
steps 2 to 4 (the bodies of the rotation protocol are not under src/).  The
contender CASes the next partition's raw tail from the clean value to
`(new_term_id, 0)`; exactly when it wins it performs `apply_default_header` on
that partition's first frame (step 3); then it CASes the active term count
forward (step 4).  Returns the new shared state and whether this contender
performed `apply_default_header`. -/
def aeron_rotation_contender (s : aeron_log_t) (current_term_count current_term_id : Int) :
    aeron_log_t × Bool :=
  let next_term_id := toInt32 (current_term_id + 1)
  let next_term_count := toInt32 (current_term_count + 1)
  let next_index := partition_of (aeron_logbuffer_index_by_term_count next_term_count)
  let expected_raw_tail := aeron_logbuffer_pack_tail (toInt32 (current_term_id - 2)) 0
  let new_raw_tail := aeron_logbuffer_pack_tail next_term_id 0
  let r := aeron_logbuffer_cas_raw_tail s.meta next_index expected_raw_tail new_raw_tail
  let s1 : aeron_log_t :=
    if r.1 then
      { meta := r.2,
        first_frame := Function.update s.first_frame next_index
          (aeron_logbuffer_apply_default_header r.2 (s.first_frame next_index)) }
    else
      { s with meta := r.2 }
  let r2 := aeron_logbuffer_cas_active_term_count s1.meta current_term_count next_term_count
  ({ s1 with meta := r2.2 }, r.1)

/-- Runs `n` rotation contenders one after another.  Each contender's steps are
individual atomic operations on the shared state and all contenders are
identical, so every concurrent schedule of them is equivalent to some such
sequence.  The second component counts how many contenders performed
`apply_default_header`. -/
def aeron_run_rotation_contenders :
    Nat → aeron_log_t → Int → Int → aeron_log_t × Nat
  | 0, s, _, _ => (s, 0)
  | Nat.succ n, s, c, t =>
    let r := aeron_rotation_contender s c t
    let rest := aeron_run_rotation_contenders n r.1 c t
    (rest.1, (if r.2 then 1 else 0) + rest.2)

/-- Runs one `cas_raw_tail` per element of `updates`, all against the same
partition and the same expected value, in the given serialization order (each
CAS is one atomic step, so any concurrent schedule is some such order).  The
second component counts how many of the calls succeeded. -/
def aeron_run_cas_race :
    List Int → aeron_logbuffer_metadata_t → Fin 3 → Int →
      aeron_logbuffer_metadata_t × Nat
  | [], m, _, _ => (m, 0)
  | u :: us, m, idx, e =>
    let r := aeron_logbuffer_cas_raw_tail m idx e u
    let rest := aeron_run_cas_race us r.2 idx e
    (rest.1, (if r.1 then 1 else 0) + rest.2)

/-- Concrete header used in witness states: the default header template of a
log with session id 1, stream id 2 and initial term id 0, as
`fill_default_header` writes it. -/
def sample_template : aeron_frame_header_t :=
  { frame_length := 0, version := 0, flags := 0, frame_type := 0,
    term_offset := 0, session_id := 1, stream_id := 2, term_id := 0 }

/-- Concrete header used in witness states as a partition's stale first frame
(left over from term 99). -/
def stale_frame : aeron_frame_header_t :=
  { frame_length := 0, version := 0, flags := 0, frame_type := 0,
    term_offset := 0, session_id := 1, stream_id := 2, term_id := 99 }

/-- Concrete metadata state for witnesses: partition 1 holds the clean raw tail
expected when rotating from term count 0 and term id 0 (term id -2, offset 0);
the other partitions hold raw tail 100. -/
def sample_meta : aeron_logbuffer_metadata_t :=
  { term_tail_counters := fun i =>
      if i.val = 1 then aeron_logbuffer_pack_tail (-2) 0 else 100,
    active_term_count := 0, term_length := 65536, initial_term_id := 0,
    default_header := sample_template }

/-- Concrete full log state built on `sample_meta`, with stale first frames in
every partition. -/
def sample_log : aeron_log_t :=
  { meta := sample_meta, first_frame := fun _ => stale_frame }

/-! ### Arithmetic helper lemmas about the two's-complement wraps -/

theorem toInt32_eq_self (n : Int) (h1 : -2147483648 ≤ n) (h2 : n < 2147483648) :
    toInt32 n = n := by
  unfold toInt32
  omega

theorem toInt32_bounds (n : Int) :
    -2147483648 ≤ toInt32 n ∧ toInt32 n < 2147483648 := by
  unfold toInt32
  omega

theorem toInt64_eq_self (n : Int) (h1 : -9223372036854775808 ≤ n)
    (h2 : n < 9223372036854775808) : toInt64 n = n := by
  unfold toInt64
  omega

theorem toInt32_add_right (a b : Int) : toInt32 (a + toInt32 b) = toInt32 (a + b) := by
  have h3 : (b + 2147483648) % 4294967296 =
      b + 2147483648 - 4294967296 * ((b + 2147483648) / 4294967296) := by
    rw [Int.emod_def]
  unfold toInt32
  rw [h3]
  omega

theorem toInt32_sub_left (a b : Int) : toInt32 (toInt32 a - b) = toInt32 (a - b) := by
  have h3 : (a + 2147483648) % 4294967296 =
      a + 2147483648 - 4294967296 * ((a + 2147483648) / 4294967296) := by
    rw [Int.emod_def]
  unfold toInt32
  rw [h3]
  omega

theorem toInt32_emod_congr (a b : Int) :
    (toInt32 a - b) % 4294967296 = (a - b) % 4294967296 := by
  have h3 : (a + 2147483648) % 4294967296 =
      a + 2147483648 - 4294967296 * ((a + 2147483648) / 4294967296) := by
    rw [Int.emod_def]
  unfold toInt32
  rw [h3]
  omega

theorem toInt32_inj_emod (a b : Int) (h : toInt32 a = toInt32 b) :
    a % 4294967296 = b % 4294967296 := by
  unfold toInt32 at h
  omega

theorem pow_shift_le (shift : Nat) (h : shift ≤ 31) : (2:Int) ^ shift ≤ 2147483648 := by
  calc (2:Int) ^ shift ≤ 2 ^ 31 := pow_le_pow_right₀ (by norm_num) h
  _ = 2147483648 := by norm_num

/-! ### Claim theorems: position codec -/

/-- C1: encode/decode round-trip of the position codec.  For any term id and
initial term id in `int32_t` range, any term offset in `[0, term_length)` with
`term_length = 2 ^ shift`, and any valid shift, decoding the encoded position
recovers the term id and the term offset; in particular, with term length 65536
(shift 16) and initial term id 0, `compute_position 2 100 16 0 = 131172`, and
decoding 131172 yields term id 2 and term offset 100. -/
theorem position_roundtrip (term_id term_offset initial_term_id : Int) (shift : Nat)
    (h1 : -2147483648 ≤ term_id) (h2 : term_id < 2147483648)
    (h3 : -2147483648 ≤ initial_term_id) (h4 : initial_term_id < 2147483648)
    (h5 : 0 ≤ term_offset) (h6 : term_offset < 2 ^ shift) (h7 : shift ≤ 31) :
    aeron_logbuffer_compute_term_id_from_position
        (aeron_logbuffer_compute_position term_id term_offset shift initial_term_id)
        shift initial_term_id = term_id ∧
    aeron_logbuffer_compute_term_offset_from_position
        (aeron_logbuffer_compute_position term_id term_offset shift initial_term_id)
        shift = term_offset ∧
    aeron_logbuffer_compute_position 2 100 16 0 = 131172 ∧
    aeron_logbuffer_compute_term_id_from_position 131172 16 0 = 2 ∧
    aeron_logbuffer_compute_term_offset_from_position 131172 16 = 100 := by
  have hK : (0:Int) < 2 ^ shift := by positivity
  have hK31 : (2:Int) ^ shift ≤ 2147483648 := pow_shift_le shift h7
  set tc := toInt32 (term_id - initial_term_id) with htc_def
  have htc1 : -2147483648 ≤ tc := (toInt32_bounds _).1
  have htc2 : tc < 2147483648 := (toInt32_bounds _).2
  have e1 : 0 ≤ (tc + 2147483648) * 2 ^ shift := mul_nonneg (by linarith) hK.le
  have e1x : (tc + 2147483648) * 2 ^ shift
      = tc * 2 ^ shift + 2147483648 * 2 ^ shift := by ring
  have e2 : (2147483648:Int) * 2 ^ shift ≤ 2147483648 * 2147483648 :=
    mul_le_mul_of_nonneg_left hK31 (by norm_num)
  have e3 : 0 ≤ (2147483647 - tc) * 2 ^ shift := mul_nonneg (by linarith) hK.le
  have e3x : (2147483647 - tc) * 2 ^ shift
      = 2147483647 * 2 ^ shift - tc * 2 ^ shift := by ring
  have e4 : (2147483647:Int) * 2 ^ shift ≤ 2147483647 * 2147483648 :=
    mul_le_mul_of_nonneg_left hK31 (by norm_num)
  have hpos : aeron_logbuffer_compute_position term_id term_offset shift initial_term_id
      = tc * 2 ^ shift + term_offset := by
    unfold aeron_logbuffer_compute_position
    rw [← htc_def]
    exact toInt64_eq_self _ (by nlinarith) (by nlinarith)
  have hdiv : (tc * 2 ^ shift + term_offset) / 2 ^ shift = tc := by
    rw [show tc * 2 ^ shift + term_offset = term_offset + tc * 2 ^ shift from by ring,
      Int.add_mul_ediv_right _ _ (ne_of_gt hK), Int.ediv_eq_zero_of_lt h5 h6]
    ring
  have hmod : (tc * 2 ^ shift + term_offset) % 2 ^ shift = term_offset := by
    rw [show tc * 2 ^ shift + term_offset = term_offset + tc * 2 ^ shift from by ring,
      Int.add_mul_emod_self, Int.emod_eq_of_lt h5 h6]
  refine ⟨?_, ?_, by decide, by decide, by decide⟩
  · unfold aeron_logbuffer_compute_term_id_from_position asr
    rw [hpos, hdiv, htc_def, toInt32_add_right,
      show initial_term_id + (term_id - initial_term_id) = term_id from by ring]
    exact toInt32_eq_self term_id h1 h2
  · unfold aeron_logbuffer_compute_term_offset_from_position
    rw [hpos, hmod]
    exact toInt32_eq_self term_offset (by linarith) (by linarith)

theorem position_roundtrip_witness :
    aeron_logbuffer_compute_term_id_from_position
        (aeron_logbuffer_compute_position 2 100 16 0) 16 0 = 2 ∧
    aeron_logbuffer_compute_term_offset_from_position
        (aeron_logbuffer_compute_position 2 100 16 0) 16 = 100 :=
  ⟨(position_roundtrip 2 100 0 16 (by norm_num) (by norm_num) (by norm_num)
      (by norm_num) (by norm_num) (by norm_num) (by norm_num)).1,
   (position_roundtrip 2 100 0 16 (by norm_num) (by norm_num) (by norm_num)
      (by norm_num) (by norm_num) (by norm_num) (by norm_num)).2.1⟩

/-- C8: decode-then-encode inverse.  For every non-negative position in
`int64_t` range whose arithmetically shifted value is representable as a
non-negative signed 32-bit term count, re-encoding the decoded
(term id, term offset) pair with the same shift and initial term id yields the
original position. -/
theorem position_decode_encode (position initial_term_id : Int) (shift : Nat)
    (h1 : 0 ≤ position) (h2 : position < 9223372036854775808)
    (h3 : asr position shift < 2147483648)
    (h4 : -2147483648 ≤ initial_term_id) (h5 : initial_term_id < 2147483648)
    (h6 : shift ≤ 31) :
    aeron_logbuffer_compute_position
      (aeron_logbuffer_compute_term_id_from_position position shift initial_term_id)
      (aeron_logbuffer_compute_term_offset_from_position position shift)
      shift initial_term_id = position := by
  have hK : (0:Int) < 2 ^ shift := by positivity
  have hK31 : (2:Int) ^ shift ≤ 2147483648 := pow_shift_le shift h6
  have hq0 : 0 ≤ position / 2 ^ shift := Int.ediv_nonneg h1 hK.le
  have hr0 : 0 ≤ position % 2 ^ shift := Int.emod_nonneg _ (ne_of_gt hK)
  have hr1 : position % 2 ^ shift < 2 ^ shift := Int.emod_lt_of_pos _ hK
  unfold asr at h3
  unfold aeron_logbuffer_compute_position aeron_logbuffer_compute_term_id_from_position
    aeron_logbuffer_compute_term_offset_from_position asr
  rw [toInt32_sub_left,
    show initial_term_id + position / 2 ^ shift - initial_term_id
      = position / 2 ^ shift from by ring,
    toInt32_eq_self (position / 2 ^ shift) (by linarith) h3,
    toInt32_eq_self (position % 2 ^ shift) (by linarith) (by linarith),
    show position / 2 ^ shift * 2 ^ shift + position % 2 ^ shift
      = 2 ^ shift * (position / 2 ^ shift) + position % 2 ^ shift from by ring,
    Int.ediv_add_emod]
  exact toInt64_eq_self position (by linarith) h2

theorem position_decode_encode_witness :
    aeron_logbuffer_compute_position
      (aeron_logbuffer_compute_term_id_from_position 131172 16 0)
      (aeron_logbuffer_compute_term_offset_from_position 131172 16) 16 0 = 131172 :=
  position_decode_encode 131172 0 16 (by norm_num) (by norm_num) (by decide)
    (by norm_num) (by norm_num) (by norm_num)

/-! ### Claim theorems: partition indexers -/

/-- C2: partition-indexer agreement.  For a consistent triple — a non-negative
position, `term_count = position >> shift` representable as a non-negative
signed 32-bit value, and `active_term_id = initial_term_id + term_count` with
32-bit wrapping — all three indexers agree, the result lies in `[0,3)`, and in
particular `index_by_term_count 5 = 2`. -/
theorem partition_index_agreement
    (position initial_term_id term_count active_term_id : Int) (shift : Nat)
    (h1 : 0 ≤ position) (h2 : shift ≤ 31)
    (h3 : term_count = asr position shift) (h4 : term_count < 2147483648)
    (h5 : active_term_id = toInt32 (initial_term_id + term_count)) :
    aeron_logbuffer_index_by_position position shift
      = aeron_logbuffer_index_by_term_count term_count ∧
    aeron_logbuffer_index_by_term_count term_count
      = aeron_logbuffer_index_by_term initial_term_id active_term_id ∧
    0 ≤ aeron_logbuffer_index_by_position position shift ∧
    aeron_logbuffer_index_by_position position shift < 3 ∧
    aeron_logbuffer_index_by_term_count 5 = 2 := by
  have hK : (0:Int) < 2 ^ shift := by positivity
  have htc0 : 0 ≤ term_count := by
    rw [h3]
    unfold asr
    exact Int.ediv_nonneg h1 hK.le
  refine ⟨?_, ?_, ?_, ?_, by decide⟩
  · unfold aeron_logbuffer_index_by_position aeron_logbuffer_index_by_term_count
    rw [h3]
  · have hsmall : term_count % 4294967296 = term_count :=
      Int.emod_eq_of_lt htc0 (by linarith)
    unfold aeron_logbuffer_index_by_term_count aeron_logbuffer_index_by_term
    rw [h5, toInt32_emod_congr,
      show initial_term_id + term_count - initial_term_id = term_count from by ring,
      hsmall]
  · unfold aeron_logbuffer_index_by_position
    exact Int.emod_nonneg _ (by norm_num)
  · unfold aeron_logbuffer_index_by_position
    exact Int.emod_lt_of_pos _ (by norm_num)

theorem partition_index_agreement_witness :
    aeron_logbuffer_index_by_position 327803 16
      = aeron_logbuffer_index_by_term_count 5 ∧
    aeron_logbuffer_index_by_term_count 5
      = aeron_logbuffer_index_by_term 0 5 ∧
    0 ≤ aeron_logbuffer_index_by_position 327803 16 ∧
    aeron_logbuffer_index_by_position 327803 16 < 3 ∧
    aeron_logbuffer_index_by_term_count 5 = 2 :=
  partition_index_agreement 327803 0 5 5 16 (by norm_num) (by norm_num)
    (by decide) (by norm_num) (by decide)

/-- C6: wraparound stability of `index_by_term`.  The partition index depends
only on the wrapped 32-bit difference between the active term id and the
initial term id: two active term ids with the same wrapped difference yield the
same partition index, whether or not one of them has wrapped past the signed
32-bit boundary. -/
theorem index_by_term_wraparound (initial_term_id a1 a2 : Int)
    (h : toInt32 (a1 - initial_term_id) = toInt32 (a2 - initial_term_id)) :
    aeron_logbuffer_index_by_term initial_term_id a1
      = aeron_logbuffer_index_by_term initial_term_id a2 := by
  unfold aeron_logbuffer_index_by_term
  rw [toInt32_inj_emod _ _ h]

theorem index_by_term_wraparound_witness :
    toInt32 (2147483648 - 0) = toInt32 (-2147483648 - 0) ∧
    aeron_logbuffer_index_by_term 0 2147483648
      = aeron_logbuffer_index_by_term 0 (-2147483648) :=
  ⟨by decide, index_by_term_wraparound 0 2147483648 (-2147483648) (by decide)⟩

/-! ### Claim theorems: raw-tail offset decoder -/

/-- C3: raw-tail offset clamp.  The decoded term offset never exceeds the term
length; when the sign-extended low 32 bits exceed the term length the result is
exactly the term length; in particular a raw tail packing term id 7 and offset
70000 decodes, with term length 65536, to exactly 65536. -/
theorem term_offset_clamp (raw_tail term_length : Int) :
    aeron_logbuffer_term_offset raw_tail term_length ≤ term_length ∧
    (term_length < toInt32 raw_tail →
      aeron_logbuffer_term_offset raw_tail term_length = term_length) ∧
    aeron_logbuffer_term_offset (aeron_logbuffer_pack_tail 7 70000) 65536 = 65536 := by
  refine ⟨?_, ?_, by decide⟩
  · unfold aeron_logbuffer_term_offset
    split_ifs with h
    · exact le_refl term_length
    · omega
  · intro h
    unfold aeron_logbuffer_term_offset
    rw [if_pos h]

/-- C10: no lower clamp in the raw-tail offset decoder.  When the low 32 bits of
the raw tail sign-extend to a negative value, the decoder returns that negative
value unchanged — the result is bounded above by the term length but not below
by 0. -/
theorem term_offset_no_lower_clamp (raw_tail term_length : Int)
    (h1 : 0 ≤ term_length) (h2 : toInt32 raw_tail < 0) :
    aeron_logbuffer_term_offset raw_tail term_length = toInt32 raw_tail ∧
    aeron_logbuffer_term_offset raw_tail term_length < 0 := by
  unfold aeron_logbuffer_term_offset
  rw [if_neg (by omega)]
  exact ⟨rfl, h2⟩

theorem term_offset_no_lower_clamp_witness :
    0 ≤ (65536:Int) ∧ toInt32 4294967292 < 0 ∧
    (aeron_logbuffer_term_offset 4294967292 65536 = toInt32 4294967292 ∧
     aeron_logbuffer_term_offset 4294967292 65536 < 0) :=
  ⟨by norm_num, by decide,
   term_offset_no_lower_clamp 4294967292 65536 (by norm_num) (by decide)⟩

/-! ### Helper lemmas about the raw-tail packing and the CAS operations -/

theorem pack_tail_eq (a : Int) (h1 : -2147483648 ≤ a) (h2 : a < 2147483648) :
    aeron_logbuffer_pack_tail a 0 = a * 4294967296 := by
  unfold aeron_logbuffer_pack_tail
  rw [show (0:Int) % 4294967296 = 0 from by norm_num, add_zero]
  refine toInt64_eq_self _ ?_ ?_
  · nlinarith [mul_nonneg (by linarith : (0:Int) ≤ a + 2147483648)
      (by norm_num : (0:Int) ≤ (4294967296:Int))]
  · nlinarith [mul_nonneg (by linarith : (0:Int) ≤ 2147483647 - a)
      (by norm_num : (0:Int) ≤ (4294967296:Int))]

theorem term_id_pack (a : Int) (h1 : -2147483648 ≤ a) (h2 : a < 2147483648) :
    aeron_logbuffer_term_id (aeron_logbuffer_pack_tail a 0) = a := by
  unfold aeron_logbuffer_term_id asr
  rw [pack_tail_eq a h1 h2,
    show (2:Int) ^ (32:Nat) = 4294967296 from by norm_num,
    Int.mul_ediv_cancel _ (by norm_num : (4294967296:Int) ≠ 0)]
  exact toInt32_eq_self a h1 h2

theorem pack_new_ne_clean (t : Int) :
    aeron_logbuffer_pack_tail (toInt32 (t + 1)) 0
      ≠ aeron_logbuffer_pack_tail (toInt32 (t - 2)) 0 := by
  have hb1 := toInt32_bounds (t + 1)
  have hb2 := toInt32_bounds (t - 2)
  have hne : toInt32 (t + 1) ≠ toInt32 (t - 2) := by
    unfold toInt32
    omega
  rw [pack_tail_eq _ hb1.1 hb1.2, pack_tail_eq _ hb2.1 hb2.2]
  intro hcontra
  exact hne (mul_right_cancel₀ (by norm_num : (4294967296:Int) ≠ 0) hcontra)

theorem toInt32_succ_ne (c : Int) (h1 : -2147483648 ≤ c) (h2 : c < 2147483648) :
    toInt32 (c + 1) ≠ c := by
  unfold toInt32
  omega

theorem cas_raw_tail_get (m : aeron_logbuffer_metadata_t) (idx : Fin 3) (e u : Int) :
    (aeron_logbuffer_cas_raw_tail m idx e u).2.term_tail_counters idx
      = if m.term_tail_counters idx = e then u else m.term_tail_counters idx := by
  unfold aeron_logbuffer_cas_raw_tail
  split_ifs with h
  · simp [Function.update_same]
  · rfl

theorem cas_raw_tail_other (m : aeron_logbuffer_metadata_t) (idx j : Fin 3) (e u : Int)
    (hj : j ≠ idx) :
    (aeron_logbuffer_cas_raw_tail m idx e u).2.term_tail_counters j
      = m.term_tail_counters j := by
  unfold aeron_logbuffer_cas_raw_tail
  split_ifs with h
  · exact Function.update_noteq hj _ _
  · rfl

theorem cas_raw_tail_active (m : aeron_logbuffer_metadata_t) (idx : Fin 3) (e u : Int) :
    (aeron_logbuffer_cas_raw_tail m idx e u).2.active_term_count
      = m.active_term_count := by
  unfold aeron_logbuffer_cas_raw_tail
  split_ifs <;> rfl

theorem cas_raw_tail_default (m : aeron_logbuffer_metadata_t) (idx : Fin 3) (e u : Int) :
    (aeron_logbuffer_cas_raw_tail m idx e u).2.default_header = m.default_header := by
  unfold aeron_logbuffer_cas_raw_tail
  split_ifs <;> rfl

theorem cas_raw_tail_tl (m : aeron_logbuffer_metadata_t) (idx : Fin 3) (e u : Int) :
    (aeron_logbuffer_cas_raw_tail m idx e u).2.term_length = m.term_length := by
  unfold aeron_logbuffer_cas_raw_tail
  split_ifs <;> rfl

theorem cas_raw_tail_init (m : aeron_logbuffer_metadata_t) (idx : Fin 3) (e u : Int) :
    (aeron_logbuffer_cas_raw_tail m idx e u).2.initial_term_id = m.initial_term_id := by
  unfold aeron_logbuffer_cas_raw_tail
  split_ifs <;> rfl

theorem cas_raw_tail_flag (m : aeron_logbuffer_metadata_t) (idx : Fin 3) (e u : Int)
    (h : m.term_tail_counters idx = e) :
    (aeron_logbuffer_cas_raw_tail m idx e u).1 = true := by
  unfold aeron_logbuffer_cas_raw_tail
  rw [if_pos h]

theorem cas_active_tails (m : aeron_logbuffer_metadata_t) (e u : Int) :
    (aeron_logbuffer_cas_active_term_count m e u).2.term_tail_counters
      = m.term_tail_counters := by
  unfold aeron_logbuffer_cas_active_term_count
  split_ifs <;> rfl

theorem cas_active_default (m : aeron_logbuffer_metadata_t) (e u : Int) :
    (aeron_logbuffer_cas_active_term_count m e u).2.default_header
      = m.default_header := by
  unfold aeron_logbuffer_cas_active_term_count
  split_ifs <;> rfl

theorem cas_active_tl (m : aeron_logbuffer_metadata_t) (e u : Int) :
    (aeron_logbuffer_cas_active_term_count m e u).2.term_length = m.term_length := by
  unfold aeron_logbuffer_cas_active_term_count
  split_ifs <;> rfl

theorem cas_active_init (m : aeron_logbuffer_metadata_t) (e u : Int) :
    (aeron_logbuffer_cas_active_term_count m e u).2.initial_term_id
      = m.initial_term_id := by
  unfold aeron_logbuffer_cas_active_term_count
  split_ifs <;> rfl

/-! ### Claim theorems: rotation protocol state -/

/-- C9: frame effect and failure atomicity of `cas_raw_tail`.  A call mutates at
most the single raw-tail word of the named partition: every other partition's
raw tail, the active term count, the term length, the initial term id and the
default header template are unchanged regardless of the outcome; and when the
call reports failure the named partition's raw tail is also unchanged. -/
theorem cas_raw_tail_frame (m : aeron_logbuffer_metadata_t)
    (partition_index j : Fin 3) (expected_raw_tail update_raw_tail : Int)
    (hj : j ≠ partition_index) :
    (aeron_logbuffer_cas_raw_tail m partition_index expected_raw_tail
        update_raw_tail).2.term_tail_counters j = m.term_tail_counters j ∧
    (aeron_logbuffer_cas_raw_tail m partition_index expected_raw_tail
        update_raw_tail).2.active_term_count = m.active_term_count ∧
    (aeron_logbuffer_cas_raw_tail m partition_index expected_raw_tail
        update_raw_tail).2.term_length = m.term_length ∧
    (aeron_logbuffer_cas_raw_tail m partition_index expected_raw_tail
        update_raw_tail).2.initial_term_id = m.initial_term_id ∧
    (aeron_logbuffer_cas_raw_tail m partition_index expected_raw_tail
        update_raw_tail).2.default_header = m.default_header ∧
    ((aeron_logbuffer_cas_raw_tail m partition_index expected_raw_tail
        update_raw_tail).1 = false →
      (aeron_logbuffer_cas_raw_tail m partition_index expected_raw_tail
          update_raw_tail).2.term_tail_counters partition_index
        = m.term_tail_counters partition_index) := by
  refine ⟨cas_raw_tail_other m partition_index j _ _ hj,
    cas_raw_tail_active m partition_index _ _,
    cas_raw_tail_tl m partition_index _ _,
    cas_raw_tail_init m partition_index _ _,
    cas_raw_tail_default m partition_index _ _, ?_⟩
  intro hfail
  by_cases h : m.term_tail_counters partition_index = expected_raw_tail
  · rw [cas_raw_tail_flag m partition_index _ _ h] at hfail
    cases hfail
  · rw [cas_raw_tail_get, if_neg h]

theorem cas_raw_tail_frame_witness :
    (0 : Fin 3) ≠ 1 ∧
    ((aeron_logbuffer_cas_raw_tail sample_meta 1 0 7).2.term_tail_counters 0
        = sample_meta.term_tail_counters 0 ∧
      (aeron_logbuffer_cas_raw_tail sample_meta 1 0 7).2.active_term_count
        = sample_meta.active_term_count ∧
      (aeron_logbuffer_cas_raw_tail sample_meta 1 0 7).2.term_length
        = sample_meta.term_length ∧
      (aeron_logbuffer_cas_raw_tail sample_meta 1 0 7).2.initial_term_id
        = sample_meta.initial_term_id ∧
      (aeron_logbuffer_cas_raw_tail sample_meta 1 0 7).2.default_header
        = sample_meta.default_header ∧
      ((aeron_logbuffer_cas_raw_tail sample_meta 1 0 7).1 = false →
        (aeron_logbuffer_cas_raw_tail sample_meta 1 0 7).2.term_tail_counters 1
          = sample_meta.term_tail_counters 1)) :=
  ⟨by decide, cas_raw_tail_frame sample_meta 1 0 0 7 (by decide)⟩

/-- C5: rotation claim CAS convention.  `rotate_log` attempts its raw-tail CAS
on the partition at `index_by_term_count (current_term_count + 1)`, from an
expected clean value whose term-id field is `current_term_id - 2` with 32-bit
wrap (equivalently, the term three rotations before the new term
`current_term_id + 1`), to the value packing `(current_term_id + 1, 0)`; when
the partition's raw tail differs from that expected value — in particular
whenever its term-id field differs from `current_term_id - 2` — the raw tail is
left unchanged. -/
theorem rotate_log_cas_convention (m : aeron_logbuffer_metadata_t)
    (current_term_count current_term_id : Int) (idx : Fin 3)
    (hc1 : -2147483648 ≤ current_term_count)
    (hc2 : current_term_count + 1 < 2147483648)
    (hidx : idx = partition_of
      (aeron_logbuffer_index_by_term_count (current_term_count + 1))) :
    aeron_logbuffer_term_id
        (aeron_logbuffer_pack_tail (toInt32 (current_term_id - 2)) 0)
      = toInt32 (current_term_id - 2) ∧
    toInt32 (current_term_id - 2) = toInt32 (current_term_id + 1 - 3) ∧
    (aeron_logbuffer_rotate_log m current_term_count
        current_term_id).term_tail_counters idx
      = (if m.term_tail_counters idx
            = aeron_logbuffer_pack_tail (toInt32 (current_term_id - 2)) 0
         then aeron_logbuffer_pack_tail (toInt32 (current_term_id + 1)) 0
         else m.term_tail_counters idx) ∧
    (aeron_logbuffer_term_id (m.term_tail_counters idx)
        ≠ toInt32 (current_term_id - 2) →
      (aeron_logbuffer_rotate_log m current_term_count
          current_term_id).term_tail_counters idx = m.term_tail_counters idx) := by
  have hb := toInt32_bounds (current_term_id - 2)
  have hcc : toInt32 (current_term_count + 1) = current_term_count + 1 :=
    toInt32_eq_self _ (by linarith) hc2
  have hmain : (aeron_logbuffer_rotate_log m current_term_count
      current_term_id).term_tail_counters idx
      = (if m.term_tail_counters idx
            = aeron_logbuffer_pack_tail (toInt32 (current_term_id - 2)) 0
         then aeron_logbuffer_pack_tail (toInt32 (current_term_id + 1)) 0
         else m.term_tail_counters idx) := by
    simp only [aeron_logbuffer_rotate_log]
    rw [hcc, ← hidx, congrFun (cas_active_tails _ _ _) idx, cas_raw_tail_get]
  refine ⟨term_id_pack _ hb.1 hb.2, ?_, hmain, ?_⟩
  · rw [show current_term_id - 2 = current_term_id + 1 - 3 from by ring]
  · intro hne
    rw [hmain, if_neg]
    intro heq
    apply hne
    rw [heq]
    exact term_id_pack _ hb.1 hb.2

theorem rotate_log_cas_convention_witness :
    aeron_logbuffer_term_id (aeron_logbuffer_pack_tail (toInt32 (0 - 2)) 0)
      = toInt32 (0 - 2) ∧
    toInt32 (0 - 2) = toInt32 (0 + 1 - 3) ∧
    (aeron_logbuffer_rotate_log sample_meta 0 0).term_tail_counters 1
      = (if sample_meta.term_tail_counters 1
            = aeron_logbuffer_pack_tail (toInt32 (0 - 2)) 0
         then aeron_logbuffer_pack_tail (toInt32 (0 + 1)) 0
         else sample_meta.term_tail_counters 1) ∧
    (aeron_logbuffer_term_id (sample_meta.term_tail_counters 1)
        ≠ toInt32 (0 - 2) →
      (aeron_logbuffer_rotate_log sample_meta 0 0).term_tail_counters 1
        = sample_meta.term_tail_counters 1) :=
  rotate_log_cas_convention sample_meta 0 0 1 (by norm_num) (by norm_num) (by decide)

/-- C4 counterexample: a `rotate_log` call that wins the raw-tail CAS does not
apply the Default Header Template into the newly claimed partition's first
frame.  In the concrete state `sample_log`, with current term count 0 and
current term id 0, the call claims partition 1 (its raw tail becomes the pack
of the new term id 1), yet partition 1's first frame is left exactly as it was:
still the stale frame, its term-id field is not the new term id, and it differs
from what `apply_default_header` would have produced.  This is forced by the
declared interface: `rotate_log` (src lines 38 and 39) receives only the
metadata region, which contains no term-partition bytes. -/
theorem rotate_log_no_header_stamp :
    (aeron_rotate_log_on_log sample_log 0 0).meta.term_tail_counters 1
      = aeron_logbuffer_pack_tail (toInt32 (0 + 1)) 0 ∧
    (aeron_rotate_log_on_log sample_log 0 0).first_frame 1
      = sample_log.first_frame 1 ∧
    ((aeron_rotate_log_on_log sample_log 0 0).first_frame 1).term_id
      ≠ toInt32 (0 + 1) ∧
    (aeron_rotate_log_on_log sample_log 0 0).first_frame 1
      ≠ aeron_logbuffer_apply_default_header
          (aeron_rotate_log_on_log sample_log 0 0).meta
          (sample_log.first_frame 1) := by
  refine ⟨by decide, rfl, by decide, by decide⟩

/-- C4 amended: `rotate_log` performs only the metadata CAS steps of the
rotation protocol (spec section 4.4 steps 2 and 4).  Across a call, every
partition's first frame is unchanged, the default header template, term length
and initial term id are unchanged, and the raw tails of all partitions other
than the claimed one (the partition at
`index_by_term_count (current_term_count + 1)`) are unchanged; the header
stamping of step 3 is left to the caller, which must invoke
`apply_default_header` on the term buffer itself. -/
theorem rotate_log_cas_steps_only (s : aeron_log_t)
    (current_term_count current_term_id : Int) (j : Fin 3)
    (hj : j ≠ partition_of (aeron_logbuffer_index_by_term_count
        (toInt32 (current_term_count + 1)))) :
    (aeron_rotate_log_on_log s current_term_count current_term_id).first_frame
      = s.first_frame ∧
    (aeron_rotate_log_on_log s current_term_count
        current_term_id).meta.default_header = s.meta.default_header ∧
    (aeron_rotate_log_on_log s current_term_count
        current_term_id).meta.term_length = s.meta.term_length ∧
    (aeron_rotate_log_on_log s current_term_count
        current_term_id).meta.initial_term_id = s.meta.initial_term_id ∧
    (aeron_rotate_log_on_log s current_term_count
        current_term_id).meta.term_tail_counters j = s.meta.term_tail_counters j := by
  refine ⟨rfl, ?_, ?_, ?_, ?_⟩ <;>
    simp only [aeron_rotate_log_on_log, aeron_logbuffer_rotate_log]
  · rw [cas_active_default, cas_raw_tail_default]
  · rw [cas_active_tl, cas_raw_tail_tl]
  · rw [cas_active_init, cas_raw_tail_init]
  · rw [congrFun (cas_active_tails _ _ _) j, cas_raw_tail_other _ _ _ _ _ hj]

theorem rotate_log_cas_steps_only_witness :
    (0 : Fin 3) ≠ partition_of (aeron_logbuffer_index_by_term_count (toInt32 (0 + 1))) ∧
    ((aeron_rotate_log_on_log sample_log 0 0).first_frame = sample_log.first_frame ∧
      (aeron_rotate_log_on_log sample_log 0 0).meta.default_header
        = sample_log.meta.default_header ∧
      (aeron_rotate_log_on_log sample_log 0 0).meta.term_length
        = sample_log.meta.term_length ∧
      (aeron_rotate_log_on_log sample_log 0 0).meta.initial_term_id
        = sample_log.meta.initial_term_id ∧
      (aeron_rotate_log_on_log sample_log 0 0).meta.term_tail_counters 0
        = sample_log.meta.term_tail_counters 0) :=
  ⟨by decide, rotate_log_cas_steps_only sample_log 0 0 0 (by decide)⟩

/-! ### Helper lemmas for the contention races -/

theorem run_cas_race_stuck (us : List Int) (m : aeron_logbuffer_metadata_t)
    (idx : Fin 3) (e : Int) (h : m.term_tail_counters idx ≠ e) :
    aeron_run_cas_race us m idx e = (m, 0) := by
  induction us with
  | nil => rfl
  | cons u us ih =>
    have hr : aeron_logbuffer_cas_raw_tail m idx e u = (false, m) := by
      unfold aeron_logbuffer_cas_raw_tail
      rw [if_neg h]
    simp only [aeron_run_cas_race, hr, ih]
    rfl

theorem run_cas_race_winner (u : Int) (us : List Int)
    (m : aeron_logbuffer_metadata_t) (idx : Fin 3) (e : Int)
    (hm : m.term_tail_counters idx = e) (hu : u ≠ e)
    (hus : ∀ v ∈ us, v ≠ e) :
    (aeron_run_cas_race (u :: us) m idx e).2 = 1 ∧
    (aeron_run_cas_race (u :: us) m idx e).1.term_tail_counters idx = u := by
  have h1 : (aeron_logbuffer_cas_raw_tail m idx e u).1 = true :=
    cas_raw_tail_flag m idx e u hm
  have h2 : (aeron_logbuffer_cas_raw_tail m idx e u).2.term_tail_counters idx = u := by
    rw [cas_raw_tail_get, if_pos hm]
  have hstuck : aeron_run_cas_race us (aeron_logbuffer_cas_raw_tail m idx e u).2 idx e
      = ((aeron_logbuffer_cas_raw_tail m idx e u).2, 0) :=
    run_cas_race_stuck us _ idx e (by rw [h2]; exact hu)
  constructor
  · simp only [aeron_run_cas_race, hstuck, h1]
    rfl
  · simp only [aeron_run_cas_race, hstuck]
    exact h2


theorem cas_active_pos (m : aeron_logbuffer_metadata_t) (e u : Int)
    (h : m.active_term_count = e) :
    (aeron_logbuffer_cas_active_term_count m e u).2.active_term_count = u := by
  unfold aeron_logbuffer_cas_active_term_count
  rw [if_pos h]

theorem rotation_contender_inert (s : aeron_log_t) (c t : Int)
    (h1 : s.meta.term_tail_counters
        (partition_of (aeron_logbuffer_index_by_term_count (toInt32 (c + 1))))
      ≠ aeron_logbuffer_pack_tail (toInt32 (t - 2)) 0)
    (h2 : s.meta.active_term_count ≠ c) :
    aeron_rotation_contender s c t = (s, false) := by
  have hr : aeron_logbuffer_cas_raw_tail s.meta
      (partition_of (aeron_logbuffer_index_by_term_count (toInt32 (c + 1))))
      (aeron_logbuffer_pack_tail (toInt32 (t - 2)) 0)
      (aeron_logbuffer_pack_tail (toInt32 (t + 1)) 0) = (false, s.meta) := by
    unfold aeron_logbuffer_cas_raw_tail
    rw [if_neg h1]
  have hr2 : aeron_logbuffer_cas_active_term_count s.meta c (toInt32 (c + 1))
      = (false, s.meta) := by
    unfold aeron_logbuffer_cas_active_term_count
    rw [if_neg h2]
  simp only [aeron_rotation_contender, hr, Bool.false_eq_true, if_false, hr2]

theorem run_rotation_contenders_stuck (n : Nat) (s : aeron_log_t) (c t : Int)
    (h1 : s.meta.term_tail_counters
        (partition_of (aeron_logbuffer_index_by_term_count (toInt32 (c + 1))))
      ≠ aeron_logbuffer_pack_tail (toInt32 (t - 2)) 0)
    (h2 : s.meta.active_term_count ≠ c) :
    aeron_run_rotation_contenders n s c t = (s, 0) := by
  induction n with
  | zero => rfl
  | succ n ih =>
    simp only [aeron_run_rotation_contenders, rotation_contender_inert s c t h1 h2, ih]
    rfl

theorem rotation_contender_flag (s : aeron_log_t) (c t : Int)
    (hs1 : s.meta.term_tail_counters
        (partition_of (aeron_logbuffer_index_by_term_count (toInt32 (c + 1))))
      = aeron_logbuffer_pack_tail (toInt32 (t - 2)) 0) :
    (aeron_rotation_contender s c t).2 = true := by
  simp only [aeron_rotation_contender]
  exact cas_raw_tail_flag _ _ _ _ hs1

theorem rotation_contender_tail (s : aeron_log_t) (c t : Int)
    (hs1 : s.meta.term_tail_counters
        (partition_of (aeron_logbuffer_index_by_term_count (toInt32 (c + 1))))
      = aeron_logbuffer_pack_tail (toInt32 (t - 2)) 0) :
    (aeron_rotation_contender s c t).1.meta.term_tail_counters
        (partition_of (aeron_logbuffer_index_by_term_count (toInt32 (c + 1))))
      = aeron_logbuffer_pack_tail (toInt32 (t + 1)) 0 := by
  have hr : aeron_logbuffer_cas_raw_tail s.meta
      (partition_of (aeron_logbuffer_index_by_term_count (toInt32 (c + 1))))
      (aeron_logbuffer_pack_tail (toInt32 (t - 2)) 0)
      (aeron_logbuffer_pack_tail (toInt32 (t + 1)) 0)
      = (true, { s.meta with
          term_tail_counters :=
            Function.update s.meta.term_tail_counters
              (partition_of (aeron_logbuffer_index_by_term_count (toInt32 (c + 1))))
              (aeron_logbuffer_pack_tail (toInt32 (t + 1)) 0) }) := by
    unfold aeron_logbuffer_cas_raw_tail
    rw [if_pos hs1]
  simp only [aeron_rotation_contender, hr, eq_self_iff_true, if_true]
  rw [congrFun (cas_active_tails _ _ _) _]
  exact Function.update_same _ _ _

theorem rotation_contender_count (s : aeron_log_t) (c t : Int)
    (hs1 : s.meta.term_tail_counters
        (partition_of (aeron_logbuffer_index_by_term_count (toInt32 (c + 1))))
      = aeron_logbuffer_pack_tail (toInt32 (t - 2)) 0)
    (hs2 : s.meta.active_term_count = c) :
    (aeron_rotation_contender s c t).1.meta.active_term_count = toInt32 (c + 1) := by
  have hr : aeron_logbuffer_cas_raw_tail s.meta
      (partition_of (aeron_logbuffer_index_by_term_count (toInt32 (c + 1))))
      (aeron_logbuffer_pack_tail (toInt32 (t - 2)) 0)
      (aeron_logbuffer_pack_tail (toInt32 (t + 1)) 0)
      = (true, { s.meta with
          term_tail_counters :=
            Function.update s.meta.term_tail_counters
              (partition_of (aeron_logbuffer_index_by_term_count (toInt32 (c + 1))))
              (aeron_logbuffer_pack_tail (toInt32 (t + 1)) 0) }) := by
    unfold aeron_logbuffer_cas_raw_tail
    rw [if_pos hs1]
  simp only [aeron_rotation_contender, hr, eq_self_iff_true, if_true]
  exact cas_active_pos _ _ _ hs2

/-- C7: rotation exactly-once under contention.  First part, CAS exclusivity:
when several contenders race `cas_raw_tail` on the same partition with the same
expected value (and updates distinct from it), in any serialization order
exactly one call succeeds and the post-state holds exactly that winner's
update.  Second part, rotation exactly-once: when `n + 1` identical contenders
drive the section 4.4 rotation protocol from a consistent state (next
partition's raw tail clean for term id `t`, active term count `c` in `int32_t`
range), exactly one performs `apply_default_header` on the newly claimed
partition and the active term count advances by exactly one. -/
theorem cas_exclusive_rotation_exactly_once
    (u : Int) (us : List Int) (m : aeron_logbuffer_metadata_t) (idx : Fin 3) (e : Int)
    (n : Nat) (s : aeron_log_t) (c t : Int)
    (hm : m.term_tail_counters idx = e) (hu : u ≠ e) (hus : ∀ v ∈ us, v ≠ e)
    (hs1 : s.meta.term_tail_counters
        (partition_of (aeron_logbuffer_index_by_term_count (toInt32 (c + 1))))
      = aeron_logbuffer_pack_tail (toInt32 (t - 2)) 0)
    (hs2 : s.meta.active_term_count = c)
    (hc1 : -2147483648 ≤ c) (hc2 : c < 2147483648) :
    ((aeron_run_cas_race (u :: us) m idx e).2 = 1 ∧
      (aeron_run_cas_race (u :: us) m idx e).1.term_tail_counters idx = u) ∧
    ((aeron_run_rotation_contenders (n + 1) s c t).2 = 1 ∧
      (aeron_run_rotation_contenders (n + 1) s c t).1.meta.active_term_count
        = toInt32 (c + 1)) := by
  have hflag := rotation_contender_flag s c t hs1
  have htail := rotation_contender_tail s c t hs1
  have hcount := rotation_contender_count s c t hs1 hs2
  have hstuck := run_rotation_contenders_stuck n (aeron_rotation_contender s c t).1 c t
    (by rw [htail]; exact pack_new_ne_clean t)
    (by rw [hcount]; exact toInt32_succ_ne c hc1 hc2)
  refine ⟨run_cas_race_winner u us m idx e hm hu hus, ?_, ?_⟩
  · simp only [aeron_run_rotation_contenders, hstuck, hflag]
    rfl
  · simp only [aeron_run_rotation_contenders, hstuck]
    exact hcount

theorem cas_exclusive_rotation_exactly_once_witness :
    ((aeron_run_cas_race (7 :: [7, 9]) sample_meta 0 100).2 = 1 ∧
      (aeron_run_cas_race (7 :: [7, 9]) sample_meta 0 100).1.term_tail_counters 0 = 7) ∧
    ((aeron_run_rotation_contenders (2 + 1) sample_log 0 0).2 = 1 ∧
      (aeron_run_rotation_contenders (2 + 1) sample_log 0 0).1.meta.active_term_count
        = toInt32 (0 + 1)) :=
  cas_exclusive_rotation_exactly_once 7 [7, 9] sample_meta 0 100 2 sample_log 0 0
    (by decide) (by decide) (by decide) (by decide) (by decide)
    (by norm_num) (by norm_num)
